import Mathlib

/-!
# Verification of the T2L Tableau-to-LookML translator core

Shallow embedding of the translator core found in `src/T2L/LookML_objects.py`
and `src/T2L/Tableau_objects.py`: the collision-free identifier allocator,
the registry insertion operations, the join-kind translation, the
relation-to-view and object-graph-to-explore translation, the column
derivation translation, and the worksheet classifier.

Python exceptions are modelled by an explicit error type `PyExc` and
`Except`-valued functions; mutable registries (ordered dicts keyed by
assigned identifier) are modelled by lists of taken names threaded through
the operations.
-/

namespace T2L

/-! ## Vocabulary (LookML_enums.py)

Python `StrEnum` members; `toStr` gives the string value (`auto()` yields
the lowercased member name), which is what f-string interpolation of a
member produces. -/

inductive JoinTypeEnum where
  | LEFT_OUTER | INNER | FULL_OUTER | CROSS
  deriving DecidableEq, Repr

inductive JoinRelationshipEnum where
  | MANY_TO_MANY | MANY_TO_ONE | ONE_TO_MANY | ONE_TO_ONE
  deriving DecidableEq, Repr

inductive LookMLFieldStructEnum where
  | DIMENSION | DIMENSION_GROUP | MEASURE | FILTER | PARAMETER
  deriving DecidableEq, Repr

inductive ViewBaseTypeEnum where
  | STRING | NUMBER | TIME | YESNO | BIN | TIER | UNQUOTED
  deriving DecidableEq, Repr

inductive LookMLMeasureTypeEnum where
  | AVERAGE | AVERAGE_DISTINCT | COUNT | COUNT_DISTINCT | MAX | MEDIAN
  | MEDIAN_DISTINCT | PERCENTILE | SUM | SUM_DISTINCT
  deriving DecidableEq, Repr

def LookMLMeasureTypeEnum.toStr : LookMLMeasureTypeEnum → String
  | .AVERAGE => "average"
  | .AVERAGE_DISTINCT => "average_distinct"
  | .COUNT => "count"
  | .COUNT_DISTINCT => "count_distinct"
  | .MAX => "max"
  | .MEDIAN => "median"
  | .MEDIAN_DISTINCT => "median_distinct"
  | .PERCENTILE => "percentile"
  | .SUM => "sum"
  | .SUM_DISTINCT => "sum_distinct"

inductive LookMLDashboardElementTypeEnum where
  | LOOKER_COLUMN | LOOKER_BAR | LOOKER_SCATTER | LOOKER_LINE | LOOKER_AREA
  | LOOKER_BOXPLOT | LOOKER_WATERFALL | LOOKER_PIE | LOOKER_DONUT_MULTIPLES
  | LOOKER_FUNNEL | LOOKER_TIMELINE | TEXT | LOOKER_GRID | TABLE
  | SINGLE_VALUE | LOOKER_SINGLE_RECORD | LOOKER_MAP | LOOKER_GOOGLE_MAP
  | LOOKER_GEO_COORDINATES | LOOKER_GEO_CHOROPLETH | LOOKER_WORDCLOUD
  deriving DecidableEq, Repr

/-! ## Python exceptions

`RuntimeError` models the exception a Python ≥3.7 generator raises when
`raise StopIteration()` executes inside it (PEP 479 converts it to
`RuntimeError`). -/

inductive PyExc where
  | RuntimeError | IndexError | AttributeError | TypeError
  deriving DecidableEq, Repr

/-! ## Identifier allocator (LookML_objects.py, lookml_name_generator)

```python
def lookml_name_generator(p_text: str) -> Generator[str]:
    base_text_list = []
    for act_char in p_text[:60]:
        if re.match('[a-z0-9_]', act_char.lower()):
            base_text_list.append(act_char.lower())
        elif act_char in (' ', "'", '"', '(', ')', '-', ':'):
            base_text_list.append('_')
        else:
            base_text_list.append('X')
    base_text = ''.join(base_text_list)
    base_text = re.sub(r'_+', '_', base_text)
    yield base_text
    if base_text[-1] == '_':
        base_text = base_text[:-1]
    for i in range(1, 1000):
        yield f'{base_text}_{i}'
    raise StopIteration()
```

The lazy generator is modelled by the finite list of values it yields
(`generatorCandidates`) together with the exception it raises when asked
for one value more (`generatorFinalExc`): `IndexError` from `base_text[-1]`
when the sanitized base is empty, `RuntimeError` (PEP 479) after the
999 suffixed candidates otherwise. -/

/-- One character of the sanitization pass: lowercased `[a-z0-9_]` kept,
the seven punctuation characters mapped to underscore, anything else to
literal uppercase `X`. -/
def sanitizeChar (c : Char) : Char :=
  let lc := c.toLower
  if ('a' ≤ lc ∧ lc ≤ 'z') ∨ ('0' ≤ lc ∧ lc ≤ '9') ∨ lc = '_' then lc
  else if c = ' ' ∨ c = '\'' ∨ c = '"' ∨ c = '(' ∨ c = ')' ∨ c = '-' ∨ c = ':' then '_'
  else 'X'

/-- `re.sub(r'_+', '_', s)`: collapse every run of consecutive underscores
into a single underscore. -/
def collapseUnderscores : List Char → List Char
  | [] => []
  | c :: rest =>
    match collapseUnderscores rest with
    | [] => [c]
    | d :: ds => if c = '_' ∧ d = '_' then d :: ds else c :: d :: ds

/-- Candidate #0 of the allocator: sanitize the first 60 characters of the
label, then collapse underscore runs. -/
def candidate0 (p_text : String) : String :=
  String.mk (collapseUnderscores ((p_text.toList.take 60).map sanitizeChar))

/-- The base used for suffixed candidates #1–#999: candidate #0 with one
trailing underscore stripped, if any. -/
def strippedBase (p_text : String) : String :=
  let b := candidate0 p_text
  if b.endsWith "_" then b.dropRight 1 else b

/-- All values the generator yields, in order.  For an empty sanitized base
the generator crashes (`base_text[-1]`) right after the first yield, so
only candidate #0 is ever produced. -/
def generatorCandidates (p_text : String) : List String :=
  let b := candidate0 p_text
  if b = "" then [b]
  else b :: (List.range' 1 999).map (fun i => strippedBase p_text ++ "_" ++ toString i)

/-- The exception the generator raises when asked for a value beyond
`generatorCandidates`: `IndexError` from the `base_text[-1]` lookup when the
base is empty, otherwise the PEP 479 `RuntimeError` from
`raise StopIteration()`. -/
def generatorFinalExc (p_text : String) : PyExc :=
  if candidate0 p_text = "" then .IndexError else .RuntimeError

/-- The allocate-and-insert loop shared by the `add_*` registry operations
(`add_lookml_model`, `add_lookml_view`, `add_explore`, `add_base_field`,
`add_derived_field`, `add_lookml_dashboard`, `add_lookml_dashboardelement`):
take the first generator candidate that is not already a key of the
registry; if every candidate is taken, the next request to the generator
raises. -/
def registerName (label : String) (taken : List String) : Except PyExc String :=
  match (generatorCandidates label).find? (fun c => !taken.contains c) with
  | some c => .ok c
  | none => .error (generatorFinalExc label)

/-- One registry insertion: on success the accepted name is appended to the
registry's key sequence; a raised exception leaves the registry unchanged. -/
def addLabel (taken : List String) (label : String) : List String :=
  match registerName label taken with
  | .ok n => taken ++ [n]
  | .error _ => taken

/-! ## Join-kind translation (Tableau_objects.py, Relationship._get_join_type_enum)

```python
mapping = {
    'inner': JoinTypeEnum.INNER,
    'left': JoinTypeEnum.LEFT_OUTER,
    'right': JoinTypeEnum.FULL_OUTER,
    'full': JoinTypeEnum.FULL_OUTER
}
return mapping.get(join_str, JoinTypeEnum.LEFT_OUTER)
```
Total: unknown strings take the `dict.get` default `LEFT_OUTER`. -/

def get_join_type_enum (join_str : String) : JoinTypeEnum :=
  if join_str = "inner" then .INNER
  else if join_str = "left" then .LEFT_OUTER
  else if join_str = "right" then .FULL_OUTER
  else if join_str = "full" then .FULL_OUTER
  else .LEFT_OUTER

/-! ## View fields (LookML_objects.py, ViewBaseField / ViewDerivedField)

View field registries (`LookMLView.fields`, an `OrderedDict` keyed by
assigned identifier) are modelled by the insertion-ordered list of taken
keys, as for the other registries. -/

structure ViewBaseFieldM where
  lookml_name : String
  lookml_struct_type : LookMLFieldStructEnum
  type : ViewBaseTypeEnum
  source_field : String
  label : String
  description : String
  deriving DecidableEq, Repr

structure ViewDerivedFieldM where
  parent_base_field : ViewBaseFieldM
  lookml_name : String
  lookml_struct_type : Option LookMLFieldStructEnum
  type : Option LookMLMeasureTypeEnum
  derivation_str : Option String
  source_field : String
  label : String
  deriving DecidableEq, Repr

/-- `ViewDerivedField.sql`: empty unless a measure type is set, otherwise an
interpolation of the parent base field's identifier
(`f'${{{self.parent_base_field.lookml_name}}} ;;'`). -/
def ViewDerivedFieldM.sql (df : ViewDerivedFieldM) : String :=
  match df.type with
  | none => ""
  | some _ => "$\x7b" ++ df.parent_base_field.lookml_name ++ "\x7d ;;"

/-- The fixed aggregation vocabulary of the `derivation_str` setter. -/
def derivation_mapping (s : String) : Option LookMLMeasureTypeEnum :=
  if s = "Sum" then some .SUM
  else if s = "Count" then some .COUNT
  else if s = "CountD" then some .COUNT_DISTINCT
  else if s = "Avg" then some .AVERAGE
  else none

/-- `derivation_mapping.get(p_devivation_str)` where the derivation may be
absent (`ColumnInstance.derivation` is `None` when the attribute is
missing): `dict.get(None)` is `None`. -/
def derivation_mapping_opt (s : Option String) : Option LookMLMeasureTypeEnum :=
  s.bind derivation_mapping

/-- `LookMLView.add_derived_field`: ignored without a measure type,
otherwise registered under the first free candidate for
`f'{parent.lookml_name}_{type}'` (f-string interpolation of the `StrEnum`
member gives its string value). -/
def add_derived_field (df : ViewDerivedFieldM) (fields : List String) :
    Except PyExc (ViewDerivedFieldM × List String) :=
  match df.type with
  | none => .ok (df, fields)
  | some t =>
      let derived_name := df.parent_base_field.lookml_name ++ "_" ++ t.toStr
      (registerName derived_name fields).map
        (fun n => ({ df with lookml_name := n }, fields ++ [n]))

/-- The `ViewDerivedField.derivation_str` setter: store the derivation,
look it up in the aggregation vocabulary; a hit makes the field a measure
and registers it in the parent's view (`add_derived_field`); otherwise the
recognized date-truncation strings only set a referencing name on the
parent's granularity sub-field, and anything else leaves the field
unregistered. -/
def set_derivation_str (df : ViewDerivedFieldM) (s : Option String) (fields : List String) :
    Except PyExc (ViewDerivedFieldM × List String) :=
  let df := { df with derivation_str := s, type := derivation_mapping_opt s }
  match derivation_mapping_opt s with
  | some _ => add_derived_field { df with lookml_struct_type := some .MEASURE } fields
  | none =>
      let df := { df with lookml_struct_type := none }
      if s = some "Year" ∨ s = some "Year-Trunc" then
        .ok ({ df with lookml_name := df.parent_base_field.lookml_name ++ "_year" }, fields)
      else if s = some "Month-Trunc" then
        .ok ({ df with lookml_name := df.parent_base_field.lookml_name ++ "_month" }, fields)
      else if s = some "Quarter-Trunc" then
        .ok ({ df with lookml_name := df.parent_base_field.lookml_name ++ "_quarter" }, fields)
      else .ok (df, fields)

/-- `ColumnInstance.lookml_derived_field` creation path: build the derived
field over the instance's parent base field, run the derivation setter,
then set the label to the instance name. -/
def mk_lookml_derived_field (ci_name : String) (parent : ViewBaseFieldM)
    (derivation : Option String) (fields : List String) :
    Except PyExc (ViewDerivedFieldM × List String) := do
  let df0 : ViewDerivedFieldM :=
    { parent_base_field := parent, lookml_name := "", lookml_struct_type := none,
      type := none, derivation_str := none, source_field := ci_name, label := "" }
  let (df, fields) ← set_derivation_str df0 derivation fields
  .ok ({ df with label := ci_name }, fields)

/-! ## Column instances and the worksheet classifier
(Tableau_objects.py, ColumnInstance / Worksheet.lookml_dashboardelement) -/

structure ColumnInstanceM where
  name : String
  derivation : Option String
  type : Option String
  role : Option String
  lookml_derived_field : Option ViewDerivedFieldM
  deriving DecidableEq, Repr

/-- The fixed Tableau-mark-class to LookML-element-type table
(Tableau_objects.py:310-319); unmapped marks give `None`. -/
def dashboard_type_mapping (mark : String) : Option LookMLDashboardElementTypeEnum :=
  if mark = "Text" then some .TABLE
  else if mark = "Bar" then some .LOOKER_COLUMN
  else if mark = "Line" then some .LOOKER_LINE
  else if mark = "Square" then some .TABLE
  else if mark = "Area" then some .LOOKER_AREA
  else if mark = "Pie" then some .LOOKER_PIE
  else if mark = "Shape" then some .LOOKER_SCATTER
  else none

/-- Element-type inference (Tableau_objects.py:321-347): the mark table,
the `Automatic` refinement cascade, and the final
`inferred_type or LookMLDashboardElementTypeEnum.TABLE` default. -/
def infer_dashboardelement_type (mark_class : String)
    (rows cols pane_texts : List ColumnInstanceM) : LookMLDashboardElementTypeEnum :=
  let inferred :=
    if mark_class = "Automatic" then
      let has_measure_in_rows := rows.any (fun f => f.role = some "measure")
      let has_measure_in_cols := cols.any (fun f => f.role = some "measure")
      let has_dim_in_rows := rows.any (fun f => f.role = some "dimension")
      let has_dim_in_cols := cols.any (fun f => f.role = some "dimension")
      if has_measure_in_rows ∧ has_measure_in_cols then some LookMLDashboardElementTypeEnum.LOOKER_SCATTER
      else if has_dim_in_rows ∧ has_measure_in_cols then some .LOOKER_LINE
      else if has_dim_in_cols ∧ has_measure_in_rows then some .LOOKER_LINE
      else if has_measure_in_cols then some .LOOKER_BAR
      else if has_measure_in_rows then some .LOOKER_COLUMN
      else if rows = [] ∧ cols = [] ∧ pane_texts.length = 1 ∧
              (pane_texts.head?.map (fun f => f.role)) = some (some "measure") then
        some .SINGLE_VALUE
      else some .TABLE
    else dashboard_type_mapping mark_class
  inferred.getD .TABLE

/-- The struct-type filter of the dashboard element field list
(`... in (DIMENSION, MEASURE, DIMENSION_GROUP)`). -/
def struct_type_accepted : Option LookMLFieldStructEnum → Bool
  | some .DIMENSION => true
  | some .MEASURE => true
  | some .DIMENSION_GROUP => true
  | _ => false

/-- Dashboard element field list (Tableau_objects.py:364-367): the derived
fields of the chained rows, cols, pane-text, pane-size, pane-color
instances, restricted to dimension/measure/dimension-group struct types. -/
def element_fields (rows cols pane_texts pane_wedge_sizes pane_colors : List ColumnInstanceM) :
    List ViewDerivedFieldM :=
  (rows ++ cols ++ pane_texts ++ pane_wedge_sizes ++ pane_colors).filterMap
    (fun ci => match ci.lookml_derived_field with
      | some f => if struct_type_accepted f.lookml_struct_type then some f else none
      | none => none)

/-- Dashboard element pivot list (Tableau_objects.py:369-383); `none`
models the untouched `DashboardElement.pivots` class default `None`. -/
def element_pivots (ty : LookMLDashboardElementTypeEnum)
    (rows cols pane_colors : List ColumnInstanceM) : Option (List ViewDerivedFieldM) :=
  if ty = .LOOKER_COLUMN ∨ ty = .LOOKER_BAR ∨ ty = .TABLE then
    if cols ≠ [] ∧ rows.any (fun f => f.role = some "measure") then
      some (cols.filterMap (fun ci => match ci.lookml_derived_field with
        | some f => if f.lookml_struct_type = some .DIMENSION then some f else none
        | none => none))
    else if rows ≠ [] ∧ cols.any (fun f => f.role = some "measure") then
      some (rows.filterMap (fun ci => match ci.lookml_derived_field with
        | some f => if f.lookml_struct_type = some .DIMENSION then some f else none
        | none => none))
    else if ty = .TABLE then
      some (cols.filterMap (fun ci => ci.lookml_derived_field))
    else none
  else if ty = .LOOKER_LINE then
    some (pane_colors.filterMap (fun ci => ci.lookml_derived_field))
  else
    some (cols.filterMap (fun ci => ci.lookml_derived_field))

structure DashboardElementM where
  element_name_orig : String
  type : LookMLDashboardElementTypeEnum
  fields : List ViewDerivedFieldM
  pivots : Option (List ViewDerivedFieldM)
  deriving DecidableEq, Repr

/-- The element-building core of `Worksheet.lookml_dashboardelement`:
type inference, field list and pivot list.  The mark class is
`panes[0].mark_class` when the worksheet has panes and `'Automatic'`
otherwise; title extraction, project/dashboard registry insertion and
model/explore linking do not affect these three results and are outside
this model. -/
def lookml_dashboardelement_core (ws_name : String) (mark_class : String)
    (rows cols pane_texts pane_wedge_sizes pane_colors : List ColumnInstanceM) :
    DashboardElementM :=
  let ty := infer_dashboardelement_type mark_class rows cols pane_texts
  { element_name_orig := ws_name, type := ty,
    fields := element_fields rows cols pane_texts pane_wedge_sizes pane_colors,
    pivots := element_pivots ty rows cols pane_colors }

/-! ## Views (LookML_objects.py, LookMLView) -/

structure LookMLViewM where
  lookml_name : String
  orig_name : String
  extension : Bool
  label : String
  sql_table_items : List String
  sql : String
  deriving DecidableEq, Repr

/-- `LookMLView.sql_table_name` is a read-only `@property`
(LookML_objects.py:389-391): the dot-join of the quote-wrapped table path
segments.  The class defines no setter for it. -/
def LookMLViewM.sql_table_name (v : LookMLViewM) (quote_char_start quote_char_end : String) :
    String :=
  String.intercalate "." (v.sql_table_items.map (fun ti => quote_char_start ++ ti ++ quote_char_end))

/-- `LookMLModel.add_lookml_view`: allocate the first free identifier for
the view's original name in the model's view registry and insert. -/
def add_lookml_view (v : LookMLViewM) (views : List String) :
    Except PyExc (LookMLViewM × List String) :=
  (registerName v.orig_name views).map
    (fun n => ({ v with lookml_name := n }, views ++ [n]))

/-! ## Explores (LookML_objects.py, LookMLExplore)

`first_object` is a view or a nested explore, `second_object` is `None`
for a single-view explore; `join_sql_on` models the Python attribute,
whose class-level default is `None` (an explicit empty list is only a
value some code paths assign). -/

abbrev JoinPredM := ViewBaseFieldM × String × ViewBaseFieldM

inductive LookMLExploreM where
  | mk (lookml_name : String) (logical_table_name : String)
       (first_object : LookMLExploreM ⊕ LookMLViewM)
       (second_object : Option (LookMLExploreM ⊕ LookMLViewM))
       (join_type : JoinTypeEnum) (join_relationship : JoinRelationshipEnum)
       (join_sql_on : Option (List JoinPredM))

def LookMLExploreM.lookml_name : LookMLExploreM → String
  | .mk n _ _ _ _ _ _ => n

def LookMLExploreM.logical_table_name : LookMLExploreM → String
  | .mk _ l _ _ _ _ _ => l

def LookMLExploreM.first_object : LookMLExploreM → LookMLExploreM ⊕ LookMLViewM
  | .mk _ _ f _ _ _ _ => f

def LookMLExploreM.second_object : LookMLExploreM → Option (LookMLExploreM ⊕ LookMLViewM)
  | .mk _ _ _ s _ _ _ => s

def LookMLExploreM.join_sql_on : LookMLExploreM → Option (List JoinPredM)
  | .mk _ _ _ _ _ _ js => js

def LookMLExploreM.set_lookml_name : LookMLExploreM → String → LookMLExploreM
  | .mk _ l f s jt jr js, n => .mk n l f s jt jr js

/-- `x.lookml_name` on a value that is either a view or an explore (both
Python classes expose the attribute). -/
def objName : LookMLExploreM ⊕ LookMLViewM → String
  | .inl e => e.lookml_name
  | .inr v => v.lookml_name

/-- The queue built by `LookMLExplore.yield_child_explores` before popping:
this explore followed by the chain of nested first objects, outermost
first. -/
def LookMLExploreM.explore_queue : LookMLExploreM → List LookMLExploreM
  | .mk n l (Sum.inl e') s jt jr js =>
      LookMLExploreM.mk n l (Sum.inl e') s jt jr js :: e'.explore_queue
  | .mk n l (Sum.inr v) s jt jr js => [LookMLExploreM.mk n l (Sum.inr v) s jt jr js]

/-- `LookMLExplore.yield_child_explores`: the chain popped innermost
first. -/
def LookMLExploreM.yield_child_explores (e : LookMLExploreM) : List LookMLExploreM :=
  e.explore_queue.reverse

/-- `LookMLModel.add_explore`: base name from the explore's logical table
name, falling back to the innermost child explore's first object's name;
then allocate-and-insert in the model's explore registry, naming the
explore. -/
def add_explore (e : LookMLExploreM) (explores : List String) :
    Except PyExc (LookMLExploreM × List String) :=
  let base_name :=
    if e.logical_table_name ≠ "" then e.logical_table_name
    else
      match e.yield_child_explores with
      | inner :: _ => objName inner.first_object
      | [] => ""
  (registerName base_name explores).map
    (fun n => (e.set_lookml_name n, explores ++ [n]))

/-! ## Source relations (Tableau_objects.py, Relation)

The model registries a datasource's `LookMLModel` owns, threaded through
the translation functions. -/

structure ModelState where
  viewNames : List String
  exploreNames : List String
  deriving DecidableEq, Repr

/-- `without_square_brackets`: strip one balanced pair of square brackets
if present. -/
def without_square_brackets (s : String) : String :=
  if s ≠ "" ∧ s.startsWith "[" ∧ s.endsWith "]" then (s.drop 1).dropRight 1 else s

/-- `os.path.basename`: the part after the last slash. -/
def pyBasename (s : String) : String := (s.splitOn "/").getLastD ""

/-- Index of the last occurrence of a character, if any. -/
def lastIdxOf (c : Char) : List Char → Option Nat
  | [] => none
  | x :: xs =>
      match lastIdxOf c xs with
      | some k => some (k + 1)
      | none => if x = c then some 0 else none

/-- Scanner for `re.findall(r'\[([^[]+)]', s)`: a match starts at `'['`,
greedily takes the run of non-`'['` characters, and backtracks to the last
`']'` inside the run (the capture must be nonempty); scanning resumes
after the consumed `']'`.  Fuel-bounded; the string length is always
enough fuel since every step consumes at least one character. -/
def scanBracketedAux : Nat → List Char → List String
  | 0, _ => []
  | _ + 1, [] => []
  | fuel + 1, c :: rest =>
      if c = '[' then
        let run := rest.takeWhile (fun x => x ≠ '[')
        let rem := rest.drop run.length
        match lastIdxOf ']' run with
        | some k =>
            if 1 ≤ k then
              String.mk (run.take k) :: scanBracketedAux fuel (run.drop (k + 1) ++ rem)
            else scanBracketedAux fuel rest
        | none => scanBracketedAux fuel rest
      else scanBracketedAux fuel rest

def findall_bracketed (s : String) : List String :=
  scanBracketedAux s.length s.toList

/-- Source relation node.  `join_yielded_preds` models the node's parsed
`join_expression` by the predicate list its `yield_joins()` resolves
(`none` when the relation has no join expression). -/
inductive RelationM where
  | mk (rel_name : Option String) (rel_type : String) (rel_join : String)
       (rel_table : String) (rel_sql_text : String)
       (join_yielded_preds : Option (List JoinPredM))
       (children_relations : List RelationM)

def RelationM.rel_name : RelationM → Option String
  | .mk n _ _ _ _ _ _ => n

def RelationM.rel_type : RelationM → String
  | .mk _ t _ _ _ _ _ => t

def RelationM.rel_join : RelationM → String
  | .mk _ _ j _ _ _ _ => j

def RelationM.rel_table : RelationM → String
  | .mk _ _ _ t _ _ _ => t

def RelationM.rel_sql_text : RelationM → String
  | .mk _ _ _ _ s _ _ => s

def RelationM.join_yielded_preds : RelationM → Option (List JoinPredM)
  | .mk _ _ _ _ _ p _ => p

def RelationM.children_relations : RelationM → List RelationM
  | .mk _ _ _ _ _ _ c => c

/-- The view-name fallback of `Relation.lookml_view`:
`self.rel_name or os.path.basename(self.rel_table).replace('.', '_') or "unknown_view"`. -/
def view_name_base (r : RelationM) : String :=
  if r.rel_name.getD "" ≠ "" then r.rel_name.getD ""
  else if String.replace (pyBasename r.rel_table) "." "_" ≠ "" then
    String.replace (pyBasename r.rel_table) "." "_"
  else "unknown_view"

/-- `Relation.lookml_view` (Tableau_objects.py:999-1037), assuming the
relation's datasource and model exist (the claims' context).  Applies only
to `table`/`text`/`union` relations; the view is named and inserted into
the model's view registry, then populated.  In the `union` case both code
paths assign to `LookMLView.sql_table_name`, a read-only `@property` with
no setter (LookML_objects.py:389-391), so Python raises `AttributeError`
there. -/
def RelationM.lookml_view (r : RelationM) (st : ModelState) :
    Except PyExc (Option LookMLViewM × ModelState) :=
  if r.rel_type ≠ "table" ∧ r.rel_type ≠ "text" ∧ r.rel_type ≠ "union" then
    .ok (none, st)
  else
    match registerName (view_name_base r) st.viewNames with
    | .error e => .error e
    | .ok n =>
        let st := { st with viewNames := st.viewNames ++ [n] }
        let v0 : LookMLViewM :=
          { lookml_name := n, orig_name := view_name_base r, extension := false,
            label := "", sql_table_items := [], sql := "" }
        if r.rel_type = "text" then
          .ok (some { v0 with sql := r.rel_sql_text }, st)
        else if r.rel_type = "table" then
          .ok (some { v0 with sql_table_items :=
                 (findall_bracketed r.rel_table).map without_square_brackets }, st)
        else
          .error .AttributeError

/-- `Relation.lookml_explore` (Tableau_objects.py:1039-1098), fuel-bounded
recursion over the finite relation tree (any fuel beyond of the tree depth
gives the source behaviour).  `table`/`text`/`union` wrap their view in a
single-sided explore with `join_sql_on = []`; `join` resolves its first
two children (explore-or-view), maps the join string, copies the yielded
predicates, and registers the explore. -/
def RelationM.lookml_explore (fuel : Nat) (r : RelationM) (st : ModelState) :
    Except PyExc (Option LookMLExploreM × ModelState) :=
  match fuel with
  | 0 => .error .RuntimeError
  | fuel + 1 =>
    if r.rel_type = "table" ∨ r.rel_type = "text" ∨ r.rel_type = "union" then do
      let (ov, st) ← r.lookml_view st
      match ov with
      | none => .ok (none, st)
      | some v => do
          let e := LookMLExploreM.mk "" v.lookml_name (Sum.inr v) none
                     .LEFT_OUTER .MANY_TO_MANY (some [])
          let (e, explores) ← add_explore e st.exploreNames
          .ok (some e, { st with exploreNames := explores })
    else if r.rel_type = "join" then
      match r.children_relations with
      | c1 :: c2 :: _ => do
          let (oe1, st) ← RelationM.lookml_explore fuel c1 st
          let (first, st) ←
            match oe1 with
            | some e1 => pure (some (Sum.inl e1), st)
            | none => do
                let (ov1, st) ← c1.lookml_view st
                pure (ov1.map Sum.inr, st)
          match first with
          | none => .ok (none, st)
          | some fo => do
              let (oe2, st) ← RelationM.lookml_explore fuel c2 st
              let (second, st) ←
                match oe2 with
                | some e2 => pure (some (Sum.inl e2), st)
                | none => do
                    let (ov2, st) ← c2.lookml_view st
                    pure (ov2.map Sum.inr, st)
              match second with
              | none => .ok (none, st)
              | some so => do
                  let e := LookMLExploreM.mk "" "" fo (some so)
                             (get_join_type_enum r.rel_join) .MANY_TO_MANY
                             (some (r.join_yielded_preds.getD []))
                  let (e, explores) ← add_explore e st.exploreNames
                  .ok (some e, { st with exploreNames := explores })
      | _ => .ok (none, st)
    else .ok (none, st)

/-! ## Object graph (Tableau_objects.py, LogicalTable / Relationship / ObjectGraph) -/

structure LogicalTableM where
  object_id : Option String
  object_caption : String
  relation : Option RelationM

/-- `LogicalTable.lookml_explore` (Tableau_objects.py:1188-1209): delegate
to the relation's explore; when that yields nothing, fall back to wrapping
the relation's view in a fresh explore (whose `join_sql_on` keeps the
class default `None`) registered with the model. -/
def LogicalTableM.lookml_explore (fuel : Nat) (lt : LogicalTableM) (st : ModelState) :
    Except PyExc (Option LookMLExploreM × ModelState) :=
  match lt.relation with
  | none => .ok (none, st)
  | some r => do
      let (oe, st) ← RelationM.lookml_explore fuel r st
      match oe with
      | some e => .ok (some e, st)
      | none => do
          let (ov, st) ← r.lookml_view st
          match ov with
          | none => .ok (none, st)
          | some v => do
              let e := LookMLExploreM.mk "" v.lookml_name (Sum.inr v) none
                         .LEFT_OUTER .MANY_TO_MANY none
              let (e, explores) ← add_explore e st.exploreNames
              .ok (some e, { st with exploreNames := explores })

/-- Object-graph relationship.  `join_expression` models the parsed
expression by the predicate list its `yield_joins()` resolves (`none` when
the raw relationship has no expression). -/
structure RelationshipM where
  first_endpoint_id : Option String
  second_endpoint_id : Option String
  rel_join : String
  join_expression : Option (List JoinPredM)

/-- Insertion-ordered `logical_tables_dict` and `relationships` list. -/
structure ObjectGraphM where
  logical_tables : List (String × LogicalTableM)
  relationships : List RelationshipM

/-- `logical_tables_dict.get(endpoint_id)`. -/
def ObjectGraphM.getLogicalTable (g : ObjectGraphM) (oid : Option String) :
    Option LogicalTableM :=
  oid.bind (fun i => (g.logical_tables.find? (fun p => p.1 == i)).map (fun p => p.2))

/-- The loop body's predicate transfer: `new_chained_explore.join_sql_on`
holds the class default `None`; each `.append` on it raises
`AttributeError`, so any nonempty yielded predicate list fails. -/
def append_join_sql_on (cur : Option (List JoinPredM)) (preds : List JoinPredM) :
    Except PyExc (Option (List JoinPredM)) :=
  match preds with
  | [] => .ok cur
  | _ :: _ =>
      match cur with
      | none => .error .AttributeError
      | some l => .ok (some (l ++ preds))

/-- The relationship loop of `ObjectGraph.gen_lookml_explore`
(Tableau_objects.py:1500-1527): in source list order, resolve the second
logical table (skipping on lookup failure), wrap the running head and the
second table's view in a new chained explore, and transfer the
relationship's predicates onto its (`None`-defaulted) `join_sql_on`. -/
def chain_relationships (g : ObjectGraphM) (fuel : Nat) :
    List RelationshipM → LookMLExploreM → ModelState →
    Except PyExc (LookMLExploreM × ModelState)
  | [], head, st => .ok (head, st)
  | rel :: rest, head, st =>
      match g.getLogicalTable rel.second_endpoint_id with
      | none => chain_relationships g fuel rest head st
      | some lt2 => do
          let (oe2, st) ← lt2.lookml_explore fuel st
          match oe2 with
          | none => chain_relationships g fuel rest head st
          | some e2 => do
              let second :=
                match e2.first_object with
                | Sum.inr v => Sum.inr v
                | Sum.inl _ => Sum.inl e2
              let js ←
                match rel.join_expression with
                | none => pure (none : Option (List JoinPredM))
                | some preds => append_join_sql_on none preds
              let head2 := LookMLExploreM.mk "" "" (Sum.inl head) (some second)
                             (get_join_type_enum rel.rel_join) .MANY_TO_MANY js
              chain_relationships g fuel rest head2 st

/-- `ObjectGraph.gen_lookml_explore` (Tableau_objects.py:1458-1539),
assuming the graph's datasource and model exist: no logical tables gives
nothing; no relationships wraps the first logical table's view; otherwise
the chain is built from the first relationship's first logical table
through the relationship loop, and the final head is registered with the
model. -/
def ObjectGraphM.gen_lookml_explore (g : ObjectGraphM) (fuel : Nat) (st : ModelState) :
    Except PyExc (Option LookMLExploreM × ModelState) :=
  match g.logical_tables with
  | [] => .ok (none, st)
  | (_, lt1) :: _ =>
      match g.relationships with
      | [] =>
          match lt1.relation with
          | none => .ok (none, st)
          | some r => do
              let (ov, st) ← r.lookml_view st
              match ov with
              | none => .ok (none, st)
              | some v =>
                  let e := LookMLExploreM.mk "" v.lookml_name (Sum.inr v) none
                             .LEFT_OUTER .MANY_TO_MANY none
                  (add_explore e st.exploreNames).map
                    (fun p => (some p.1, { st with exploreNames := p.2 }))
      | rel1 :: _ =>
          match g.getLogicalTable rel1.first_endpoint_id with
          | none => .ok (none, st)
          | some lt0 => do
              let (oh, st) ← lt0.lookml_explore fuel st
              match oh with
              | none => .ok (none, st)
              | some head => do
                  let (final, st) ← chain_relationships g fuel g.relationships head st
                  (add_explore final st.exploreNames).map
                    (fun p => (some p.1, { st with exploreNames := p.2 }))

/-! ## Claim-side classifier definitions

`claimed_automatic_type` transcribes the claimed `Automatic` rule cascade
word for word (rules 2 and 3 demand that every row/column field be an
ordinal or quantitative dimension); `amended_automatic_type` transcribes
the amended cascade, where rules 2 and 3 only demand some field of role
`dimension` in the respective axis, regardless of its type tag.  Both are
compared against `infer_dashboardelement_type` from the source. -/

def claimed_automatic_type (rows cols pane_texts : List ColumnInstanceM) :
    LookMLDashboardElementTypeEnum :=
  if (∃ f ∈ rows, f.role = some "measure") ∧ (∃ f ∈ cols, f.role = some "measure") then
    .LOOKER_SCATTER
  else if (∀ f ∈ rows, f.role = some "dimension" ∧
             (f.type = some "ordinal" ∨ f.type = some "quantitative")) ∧
          (∃ f ∈ cols, f.role = some "measure") then .LOOKER_LINE
  else if (∀ f ∈ cols, f.role = some "dimension" ∧
             (f.type = some "ordinal" ∨ f.type = some "quantitative")) ∧
          (∃ f ∈ rows, f.role = some "measure") then .LOOKER_LINE
  else if ∃ f ∈ cols, f.role = some "measure" then .LOOKER_BAR
  else if ∃ f ∈ rows, f.role = some "measure" then .LOOKER_COLUMN
  else if rows = [] ∧ cols = [] ∧ pane_texts.length = 1 ∧
          (pane_texts.head?.map (fun f => f.role)) = some (some "measure") then .SINGLE_VALUE
  else .TABLE

def amended_automatic_type (rows cols pane_texts : List ColumnInstanceM) :
    LookMLDashboardElementTypeEnum :=
  if (∃ f ∈ rows, f.role = some "measure") ∧ (∃ f ∈ cols, f.role = some "measure") then
    .LOOKER_SCATTER
  else if (∃ f ∈ rows, f.role = some "dimension") ∧ (∃ f ∈ cols, f.role = some "measure") then
    .LOOKER_LINE
  else if (∃ f ∈ cols, f.role = some "dimension") ∧ (∃ f ∈ rows, f.role = some "measure") then
    .LOOKER_LINE
  else if ∃ f ∈ cols, f.role = some "measure" then .LOOKER_BAR
  else if ∃ f ∈ rows, f.role = some "measure" then .LOOKER_COLUMN
  else if rows = [] ∧ cols = [] ∧ pane_texts.length = 1 ∧
          (pane_texts.head?.map (fun f => f.role)) = some (some "measure") then .SINGLE_VALUE
  else .TABLE

/-! ## Concrete instances used by the theorems -/

/-- An ordinal dimension column instance (the claimed example's rows). -/
def regionOrdinalCI : ColumnInstanceM :=
  ⟨"Region", none, some "ordinal", some "dimension", none⟩

/-- A nominal dimension column instance (neither ordinal nor quantitative). -/
def regionNominalCI : ColumnInstanceM :=
  ⟨"Region", none, some "nominal", some "dimension", none⟩

/-- A measure column instance. -/
def salesMeasureCI : ColumnInstanceM :=
  ⟨"Sales", some "Sum", some "quantitative", some "measure", none⟩

/-- A NUMBER base field with identifier `sales`. -/
def salesBaseField : ViewBaseFieldM :=
  ⟨"sales", .DIMENSION, .NUMBER, "sales", "sales", ""⟩

/-- A `union` relation with one child `table` relation carrying a table
reference. -/
def unionExampleRelation : RelationM :=
  .mk (some "union_rel") "union" "inner" "" "" none
      [.mk none "table" "inner" "[db].[schema].[orders]" "" none []]

def fieldIdA : ViewBaseFieldM := ⟨"id", .DIMENSION, .NUMBER, "id", "", ""⟩

def fieldIdB : ViewBaseFieldM := ⟨"id", .DIMENSION, .NUMBER, "id", "", ""⟩

def tableRelA : RelationM := .mk (some "a") "table" "inner" "[db].[ta]" "" none []

def tableRelB : RelationM := .mk (some "b") "table" "inner" "[db].[tb]" "" none []

def tableRelC : RelationM := .mk (some "c") "table" "inner" "[db].[tc]" "" none []

def ltA : LogicalTableM := ⟨some "A", "", some tableRelA⟩

def ltB : LogicalTableM := ⟨some "B", "", some tableRelB⟩

def ltC : LogicalTableM := ⟨some "C", "", some tableRelC⟩

/-- An object graph with three logical tables A, B, C and two
relationships A–B then B–C (in list order), each with a one-predicate
join expression. -/
def chainGraph : ObjectGraphM :=
  ⟨[("A", ltA), ("B", ltB), ("C", ltC)],
   [⟨some "A", some "B", "inner", some [(fieldIdA, "=", fieldIdB)]⟩,
    ⟨some "B", some "C", "inner", some [(fieldIdB, "=", fieldIdA)]⟩]⟩

/-- A measure derived field over `sales`. -/
def dupMeasureField : ViewDerivedFieldM :=
  { parent_base_field := salesBaseField, lookml_name := "sales_sum",
    lookml_struct_type := some .MEASURE, type := some .SUM,
    derivation_str := some "Sum", source_field := "Sales", label := "Sales" }

/-- One column instance carrying `dupMeasureField`; placing it on two axes
models the same Python `ColumnInstance` object appearing in two of the
worksheet's field lists. -/
def dupCI : ColumnInstanceM :=
  ⟨"Sales", some "Sum", some "quantitative", some "measure", some dupMeasureField⟩

/-! ## Helper lemmas -/

/-- An accepted allocation is absent from the registry it was checked
against. -/
theorem registerName_fresh (label : String) (taken : List String) (n : String)
    (h : registerName label taken = .ok n) : n ∉ taken := by
  unfold registerName at h
  cases hfind : (generatorCandidates label).find? (fun c => !taken.contains c) with
  | none => rw [hfind] at h; cases h
  | some c =>
      rw [hfind] at h
      cases h
      have := List.find?_some hfind
      simpa using this

/-- One insertion preserves distinctness of the registry keys. -/
theorem addLabel_nodup (st : List String) (l : String) (h : st.Nodup) :
    (addLabel st l).Nodup := by
  unfold addLabel
  cases hr : registerName l st with
  | ok n =>
      have hn : n ∉ st := registerName_fresh l st n hr
      simp [List.nodup_append, h, hn]
  | error e => exact h

/-- Any insertion sequence preserves distinctness of the registry keys. -/
theorem foldl_addLabel_nodup (labels : List String) :
    ∀ start : List String, start.Nodup → (labels.foldl addLabel start).Nodup := by
  induction labels with
  | nil => intro s h; simpa using h
  | cons l ls ih => intro s h; exact ih _ (addLabel_nodup s l h)

/-- The candidate sequence never exceeds 1,000 entries. -/
theorem generatorCandidates_length (label : String) :
    (generatorCandidates label).length ≤ 1000 := by
  unfold generatorCandidates
  by_cases hb : candidate0 label = "" <;> simp [hb]

/-- With every candidate already taken, the insertion loop ends in the
generator's raised exception. -/
theorem registerName_exhausted (label : String) (taken : List String)
    (h : ∀ c ∈ generatorCandidates label, c ∈ taken) :
    registerName label taken = .error (generatorFinalExc label) := by
  have hfind : (generatorCandidates label).find? (fun c => !taken.contains c) = none := by
    rw [List.find?_eq_none]
    intro x hx
    simp [h x hx]
  unfold registerName
  rw [hfind]

/-- A label that the sanitizer leaves unchanged, is nonempty and is free
in the registry is allocated verbatim. -/
theorem registerName_of_fixed (label : String) (taken : List String)
    (hsan : candidate0 label = label) (hne : label ≠ "")
    (hfree : label ∉ taken) :
    registerName label taken = .ok label := by
  have h1 : generatorCandidates label
      = label :: (List.range' 1 999).map (fun i => strippedBase label ++ "_" ++ toString i) := by
    unfold generatorCandidates
    rw [hsan]
    simp [hne]
  unfold registerName
  rw [h1, List.find?_cons_of_pos _ (by simp [hfree])]

/-- Requesting the view of any `union`-typed relation raises. -/
theorem union_view_error (r : RelationM) (st : ModelState) (h : r.rel_type = "union") :
    ∃ e : PyExc, r.lookml_view st = .error e := by
  unfold RelationM.lookml_view
  rw [h, if_neg (by decide)]
  cases hr : registerName (view_name_base r) st.viewNames with
  | error e => exact ⟨e, rfl⟩
  | ok n => exact ⟨.AttributeError, rfl⟩

theorem measure_name_ne_empty (p t : String) : p ++ "_" ++ t ≠ "" := by
  intro hcontra
  have hlen := congrArg String.length hcontra
  rw [String.length_append, String.length_append] at hlen
  have h1 : ("_" : String).length = 1 := rfl
  have h0 : ("" : String).length = 0 := rfl
  omega

/-- A recognized aggregation derivation emits a measure named
`<parent>_<aggregation>` when that name is sanitizer-fixed and free. -/
theorem measure_naming (ci_name : String) (parent : ViewBaseFieldM) (deriv : String)
    (mt : LookMLMeasureTypeEnum) (fields : List String)
    (hmap : derivation_mapping deriv = some mt)
    (hsan : candidate0 (parent.lookml_name ++ "_" ++ mt.toStr)
              = parent.lookml_name ++ "_" ++ mt.toStr)
    (hfree : parent.lookml_name ++ "_" ++ mt.toStr ∉ fields) :
    mk_lookml_derived_field ci_name parent (some deriv) fields
      = .ok ({ parent_base_field := parent,
               lookml_name := parent.lookml_name ++ "_" ++ mt.toStr,
               lookml_struct_type := some .MEASURE, type := some mt,
               derivation_str := some deriv, source_field := ci_name,
               label := ci_name },
             fields ++ [parent.lookml_name ++ "_" ++ mt.toStr]) := by
  have hreg := registerName_of_fixed (parent.lookml_name ++ "_" ++ mt.toStr) fields hsan
    (measure_name_ne_empty _ _) hfree
  unfold mk_lookml_derived_field set_derivation_str add_derived_field derivation_mapping_opt
  simp only [Option.some_bind, hmap]
  rw [hreg]
  rfl

/-- A derivation outside the aggregation vocabulary registers nothing:
the field registry is unchanged and the field has no struct type. -/
theorem unrecognized_derivation (ci_name : String) (parent : ViewBaseFieldM)
    (deriv : Option String) (fields : List String)
    (hmap : derivation_mapping_opt deriv = none) :
    ∃ df, mk_lookml_derived_field ci_name parent deriv fields = .ok (df, fields)
          ∧ df.lookml_struct_type = none := by
  unfold mk_lookml_derived_field set_derivation_str
  rw [hmap]
  split_ifs
  · exact ⟨_, rfl, rfl⟩
  · exact ⟨_, rfl, rfl⟩
  · exact ⟨_, rfl, rfl⟩
  · exact ⟨_, rfl, rfl⟩

/-- The source `Automatic` cascade coincides with the amended rule list. -/
theorem infer_eq_amended (rows cols pane_texts : List ColumnInstanceM) :
    infer_dashboardelement_type "Automatic" rows cols pane_texts
      = amended_automatic_type rows cols pane_texts := by
  unfold infer_dashboardelement_type amended_automatic_type
  rw [if_pos rfl]
  simp only [List.any_eq_true, decide_eq_true_eq]
  split_ifs <;> simp_all

/-- Occurrence counting for the element field list: an accepted field
appears once per carrying instance across the five concatenated lists. -/
theorem count_element_fields
    (rows cols pane_texts pane_wedge_sizes pane_colors : List ColumnInstanceM)
    (f : ViewDerivedFieldM) (hacc : struct_type_accepted f.lookml_struct_type = true) :
    (element_fields rows cols pane_texts pane_wedge_sizes pane_colors).count f
      = ((rows ++ cols ++ pane_texts ++ pane_wedge_sizes ++ pane_colors).filter
          (fun ci => ci.lookml_derived_field == some f)).length := by
  unfold element_fields
  generalize (rows ++ cols ++ pane_texts ++ pane_wedge_sizes ++ pane_colors) = l
  induction l with
  | nil => simp
  | cons ci rest ih =>
      cases hdf : ci.lookml_derived_field with
      | none => simp [List.filterMap_cons, List.filter_cons, hdf, ih]
      | some g =>
          by_cases hg : g = f
          · subst hg
            simp [List.filterMap_cons, List.filter_cons, hdf, hacc, ih, List.count_cons]
          · by_cases hacc2 : struct_type_accepted g.lookml_struct_type = true
            · simp [List.filterMap_cons, List.filter_cons, hdf, hacc2, ih, List.count_cons, hg]
            · simp [List.filterMap_cons, List.filter_cons, hdf, hacc2, ih, hg]

/-- Every member of the element field list has an accepted struct type. -/
theorem element_fields_struct
    (rows cols pane_texts pane_wedge_sizes pane_colors : List ColumnInstanceM) :
    ∀ f ∈ element_fields rows cols pane_texts pane_wedge_sizes pane_colors,
      struct_type_accepted f.lookml_struct_type = true := by
  intro f hf
  unfold element_fields at hf
  rw [List.mem_filterMap] at hf
  obtain ⟨ci, _, hci⟩ := hf
  cases hdf : ci.lookml_derived_field with
  | none => rw [hdf] at hci; simp at hci
  | some g =>
      rw [hdf] at hci
      by_cases hacc : struct_type_accepted g.lookml_struct_type = true
      · simp only [hacc, if_true] at hci
        injection hci with h
        subst h
        exact hacc
      · simp at hci
        exact absurd hci.1 hacc

/-! ## Claim theorems -/

/-- Claim C1: every accepting add operation on a registry assigns an
identifier distinct from every identifier already present (so any
insertion sequence keeps the key set duplicate-free), and for the label
"Order Date (Custom)!" the allocator's candidate #0 is exactly
"order_date_custom_X". -/
theorem claim_C1_allocator_unique :
    (∀ (label : String) (taken : List String) (n : String),
        registerName label taken = .ok n → n ∉ taken)
    ∧ (∀ (labels start : List String), start.Nodup → (labels.foldl addLabel start).Nodup)
    ∧ candidate0 "Order Date (Custom)!" = "order_date_custom_X" :=
  ⟨registerName_fresh, fun labels start h => foldl_addLabel_nodup labels start h, by decide⟩

/-- Claim C1 witness at concrete inputs. -/
theorem claim_C1_witness :
    ("order_date" ∉ (["foo"] : List String))
    ∧ ((["Order Date", "Order-Date"].foldl addLabel []).Nodup) :=
  ⟨claim_C1_allocator_unique.1 "Order Date" ["foo"] "order_date" rfl,
   claim_C1_allocator_unique.2.1 ["Order Date", "Order-Date"] [] (by decide)⟩

/-- Claim C2 counterexample: the join-kind translation does not reject the
input "cross"; it silently yields the `dict.get` default LEFT_OUTER, so
unrecognized strings are not flagged as unsupported. -/
theorem claim_C2_counterexample :
    get_join_type_enum "cross" = JoinTypeEnum.LEFT_OUTER := rfl

/-- Claim C2 (amended): the translation maps inner to INNER, left to
LEFT_OUTER, right to FULL_OUTER and full to FULL_OUTER, and every other
input string silently defaults to LEFT_OUTER with no failure. -/
theorem claim_C2_join_mapping_amended :
    get_join_type_enum "inner" = .INNER
    ∧ get_join_type_enum "left" = .LEFT_OUTER
    ∧ get_join_type_enum "right" = .FULL_OUTER
    ∧ get_join_type_enum "full" = .FULL_OUTER
    ∧ ∀ s : String, s ≠ "inner" → s ≠ "left" → s ≠ "right" → s ≠ "full" →
        get_join_type_enum s = .LEFT_OUTER :=
  ⟨rfl, rfl, rfl, rfl, by
    intro s h1 h2 h3 h4
    unfold get_join_type_enum
    rw [if_neg h1, if_neg h2, if_neg h3, if_neg h4]⟩

/-- Claim C2 witness at the concrete input "outer". -/
theorem claim_C2_witness : get_join_type_enum "outer" = .LEFT_OUTER :=
  claim_C2_join_mapping_amended.2.2.2.2 "outer" (by decide) (by decide) (by decide) (by decide)

/-- Claim C3: requesting the view of a union relation does not succeed
with the first child's table reference; the union branch assigns to the
read-only property `sql_table_name` and raises (AttributeError at the
failing input), so every union relation's view request ends in a raised
exception. -/
theorem claim_C3_union_view_crash :
    (∀ (r : RelationM) (st : ModelState), r.rel_type = "union" →
        ∃ e : PyExc, r.lookml_view st = .error e)
    ∧ unionExampleRelation.lookml_view ⟨[], []⟩ = .error .AttributeError :=
  ⟨union_view_error, rfl⟩

/-- Claim C3 witness at the concrete union relation. -/
theorem claim_C3_witness :
    ∃ e : PyExc, unionExampleRelation.lookml_view ⟨[], []⟩ = .error e :=
  claim_C3_union_view_crash.1 unionExampleRelation ⟨[], []⟩ rfl

/-- Claim C4 counterexample: rows = [nominal dimension], cols = [measure].
The claimed rule list gives COLUMN(bar) (rule 2 requires every row field
ordinal/quantitative), but the source classifier gives LINE (it only asks
for some row field of role dimension). -/
theorem claim_C4_counterexample :
    infer_dashboardelement_type "Automatic" [regionNominalCI] [salesMeasureCI] []
      = .LOOKER_LINE
    ∧ claimed_automatic_type [regionNominalCI] [salesMeasureCI] [] = .LOOKER_BAR
    ∧ LookMLDashboardElementTypeEnum.LOOKER_LINE ≠ .LOOKER_BAR := by
  have h1 : infer_dashboardelement_type "Automatic" [regionNominalCI] [salesMeasureCI] []
      = LookMLDashboardElementTypeEnum.LOOKER_LINE := by decide
  have h2 : claimed_automatic_type [regionNominalCI] [salesMeasureCI] []
      = LookMLDashboardElementTypeEnum.LOOKER_BAR := by decide
  exact ⟨h1, h2, by decide⟩

/-- Claim C4 (amended): for mark class Automatic the classifier applies, in
order: (1) measures in both axes give SCATTER; (2) some dimension-role
field in rows and a measure in columns give LINE; (3) the symmetric column
case gives LINE; (4) a measure in columns gives BAR; (5) a measure in rows
gives COLUMN; (6) no rows, no columns and exactly one pane-text measure
give SINGLE_VALUE; (7) otherwise TABLE.  In particular rows = [ordinal
dimension Region], cols = [measure Sales] classify as LINE. -/
theorem claim_C4_classifier_amended :
    (∀ rows cols pane_texts : List ColumnInstanceM,
        infer_dashboardelement_type "Automatic" rows cols pane_texts
          = amended_automatic_type rows cols pane_texts)
    ∧ infer_dashboardelement_type "Automatic" [regionOrdinalCI] [salesMeasureCI] []
        = .LOOKER_LINE :=
  ⟨infer_eq_amended, by decide⟩

/-- Claim C4 witness at concrete inputs. -/
theorem claim_C4_witness :
    infer_dashboardelement_type "Automatic" [regionNominalCI] [] []
      = amended_automatic_type [regionNominalCI] [] [] :=
  claim_C4_classifier_amended.1 [regionNominalCI] [] []

/-- Claim C5: on the 3-table, 2-relationship object graph (A–B then B–C,
each relationship carrying one resolved join predicate) the explore-chain
construction raises AttributeError instead of producing a serialized
explore with two join blocks: the chained explore's `join_sql_on` is the
class default `None` and the loop appends the predicates onto it. -/
theorem claim_C5_chain_crash :
    ∀ fuel : Nat, chainGraph.gen_lookml_explore (fuel + 1) ⟨[], []⟩ = .error .AttributeError :=
  fun _ => rfl

/-- Claim C5 witness at a concrete fuel value. -/
theorem claim_C5_witness :
    chainGraph.gen_lookml_explore 4 ⟨[], []⟩ = .error .AttributeError :=
  claim_C5_chain_crash 3

/-- Claim C6: derivation "Sum" on base field sales (NUMBER) in a view
where sales_sum is free emits a measure named sales_sum with SQL
interpolating the parent; the fixed aggregation table maps Sum, Count,
CountD, Avg; a recognized aggregation names the measure
`<parent>_<aggregation>`; and any derivation outside that vocabulary
registers no field. -/
theorem claim_C6_derivation :
    (∀ fields : List String, "sales_sum" ∉ fields →
        ∃ df : ViewDerivedFieldM,
          mk_lookml_derived_field "Sales" salesBaseField (some "Sum") fields
            = .ok (df, fields ++ ["sales_sum"])
          ∧ df.lookml_name = "sales_sum"
          ∧ df.lookml_struct_type = some .MEASURE
          ∧ df.sql = "$\x7bsales\x7d ;;")
    ∧ derivation_mapping "Sum" = some .SUM
    ∧ derivation_mapping "Count" = some .COUNT
    ∧ derivation_mapping "CountD" = some .COUNT_DISTINCT
    ∧ derivation_mapping "Avg" = some .AVERAGE
    ∧ (∀ (ci_name : String) (parent : ViewBaseFieldM) (deriv : String)
          (mt : LookMLMeasureTypeEnum) (fields : List String),
        derivation_mapping deriv = some mt →
        candidate0 (parent.lookml_name ++ "_" ++ mt.toStr)
          = parent.lookml_name ++ "_" ++ mt.toStr →
        parent.lookml_name ++ "_" ++ mt.toStr ∉ fields →
        ∃ df : ViewDerivedFieldM,
          mk_lookml_derived_field ci_name parent (some deriv) fields
            = .ok (df, fields ++ [parent.lookml_name ++ "_" ++ mt.toStr])
          ∧ df.lookml_name = parent.lookml_name ++ "_" ++ mt.toStr)
    ∧ (∀ (ci_name : String) (parent : ViewBaseFieldM) (deriv : Option String)
          (fields : List String),
        derivation_mapping_opt deriv = none →
        ∃ df : ViewDerivedFieldM,
          mk_lookml_derived_field ci_name parent deriv fields = .ok (df, fields)
          ∧ df.lookml_struct_type = none) := by
  refine ⟨?_, rfl, rfl, rfl, rfl, ?_, unrecognized_derivation⟩
  · intro fields hfree
    exact ⟨_, measure_naming "Sales" salesBaseField "Sum" .SUM fields rfl (by decide) hfree,
           rfl, rfl, rfl⟩
  · intro ci_name parent deriv mt fields hmap hsan hfree
    exact ⟨_, measure_naming ci_name parent deriv mt fields hmap hsan hfree, rfl⟩

/-- Claim C6 witness at concrete inputs. -/
theorem claim_C6_witness :
    (∃ df : ViewDerivedFieldM,
        mk_lookml_derived_field "Sales" salesBaseField (some "Sum") []
          = .ok (df, ["sales_sum"])
        ∧ df.lookml_name = "sales_sum"
        ∧ df.lookml_struct_type = some .MEASURE
        ∧ df.sql = "$\x7bsales\x7d ;;")
    ∧ (∃ df : ViewDerivedFieldM,
        mk_lookml_derived_field "Profit" salesBaseField (some "AGG(custom)") []
          = .ok (df, [])
        ∧ df.lookml_struct_type = none) :=
  ⟨claim_C6_derivation.1 [] (by decide),
   claim_C6_derivation.2.2.2.2.2.2 "Profit" salesBaseField (some "AGG(custom)") [] (by decide)⟩

/-- Claim C7 counterexample: the same column instance on the rows axis and
the pane-color list makes its derived field appear twice in the element
field list — duplicates are not removed. -/
theorem claim_C7_counterexample :
    (lookml_dashboardelement_core "ws" "Automatic" [dupCI] [] [] [] [dupCI]).fields
      = [dupMeasureField, dupMeasureField]
    ∧ ((lookml_dashboardelement_core "ws" "Automatic" [dupCI] [] [] [] [dupCI]).fields.count
        dupMeasureField ≠ 1) := by
  have h1 : (lookml_dashboardelement_core "ws" "Automatic" [dupCI] [] [] [] [dupCI]).fields
      = [dupMeasureField, dupMeasureField] := by decide
  have h2 : ((lookml_dashboardelement_core "ws" "Automatic" [dupCI] [] [] [] [dupCI]).fields.count
      dupMeasureField ≠ 1) := by decide
  exact ⟨h1, h2⟩

/-- Claim C7 (amended): the element's field list is the concatenation, in
order rows, columns, pane-text, pane-size, pane-color, of the instances'
derived fields restricted to dimension/measure/dimension-group struct
types, duplicates retained: an accepted field occurs once per carrying
instance, and every listed field has an accepted struct type. -/
theorem claim_C7_fields_amended :
    (∀ (ws mark : String)
        (rows cols pane_texts pane_wedge_sizes pane_colors : List ColumnInstanceM)
        (f : ViewDerivedFieldM),
        struct_type_accepted f.lookml_struct_type = true →
        (lookml_dashboardelement_core ws mark rows cols pane_texts
            pane_wedge_sizes pane_colors).fields.count f
          = ((rows ++ cols ++ pane_texts ++ pane_wedge_sizes ++ pane_colors).filter
              (fun ci => ci.lookml_derived_field == some f)).length)
    ∧ (∀ (ws mark : String)
        (rows cols pane_texts pane_wedge_sizes pane_colors : List ColumnInstanceM),
        ∀ f ∈ (lookml_dashboardelement_core ws mark rows cols pane_texts
                  pane_wedge_sizes pane_colors).fields,
          struct_type_accepted f.lookml_struct_type = true) :=
  ⟨fun _ _ rows cols pts pws pcs f hacc =>
      count_element_fields rows cols pts pws pcs f hacc,
   fun _ _ rows cols pts pws pcs => element_fields_struct rows cols pts pws pcs⟩

/-- Claim C7 witness at concrete inputs. -/
theorem claim_C7_witness :
    (lookml_dashboardelement_core "ws" "Automatic" [dupCI] [] [] [] [dupCI]).fields.count
        dupMeasureField
      = (([dupCI] ++ [] ++ [] ++ [] ++ [dupCI]).filter
          (fun ci : ColumnInstanceM => ci.lookml_derived_field == some dupMeasureField)).length :=
  claim_C7_fields_amended.1 "ws" "Automatic" [dupCI] [] [] [] [dupCI] dupMeasureField (by decide)

/-- Claim C8 counterexample: the mark class GanttBar is outside the mark
table, yet the worksheet is not rejected: a dashboard element is still
produced and its type defaults to TABLE. -/
theorem claim_C8_counterexample :
    dashboard_type_mapping "GanttBar" = none
    ∧ (lookml_dashboardelement_core "ws" "GanttBar" [] [] [] [] []).type = .TABLE :=
  ⟨rfl, rfl⟩

/-- Claim C8 (amended): a worksheet whose mark class is outside the
recognized mark table (and is not Automatic) is not treated as
unsupported; its dashboard element is produced with type defaulting to
TABLE. -/
theorem claim_C8_unmapped_mark_amended
    (ws mark : String)
    (rows cols pane_texts pane_wedge_sizes pane_colors : List ColumnInstanceM)
    (hmark : dashboard_type_mapping mark = none) (hauto : mark ≠ "Automatic") :
    (lookml_dashboardelement_core ws mark rows cols pane_texts
        pane_wedge_sizes pane_colors).type = .TABLE := by
  unfold lookml_dashboardelement_core infer_dashboardelement_type
  rw [if_neg hauto, hmark]
  rfl

/-- Claim C8 witness at the concrete mark Multipolygon. -/
theorem claim_C8_witness :
    (lookml_dashboardelement_core "ws2" "Multipolygon" [] [] [] [] []).type = .TABLE :=
  claim_C8_unmapped_mark_amended "ws2" "Multipolygon" [] [] [] [] [] (by decide) (by decide)

/-- Claim C9: the allocator's candidate sequence holds at most 1,000
entries, and exhausting them all without acceptance ends the insertion in
the generator's defined raised exception, never a silent loop. -/
theorem claim_C9_allocator_bounded :
    (∀ label : String, (generatorCandidates label).length ≤ 1000)
    ∧ (∀ (label : String) (taken : List String),
        (∀ c ∈ generatorCandidates label, c ∈ taken) →
        registerName label taken = .error (generatorFinalExc label)) :=
  ⟨generatorCandidates_length, registerName_exhausted⟩

/-- Claim C9 witness at concrete inputs. -/
theorem claim_C9_witness :
    (generatorCandidates "order").length ≤ 1000
    ∧ registerName "" [""] = .error (generatorFinalExc "") :=
  ⟨claim_C9_allocator_bounded.1 "order",
   claim_C9_allocator_bounded.2 "" [""] (by decide)⟩

/-- Claim C10: for the empty label candidate #0 is the empty string, the
empty identifier is accepted into an empty registry, and requesting any
further candidate raises IndexError instead of producing suffixed
candidates. -/
theorem claim_C10_empty_label :
    generatorCandidates "" = [""]
    ∧ generatorFinalExc "" = PyExc.IndexError
    ∧ registerName "" [] = .ok ""
    ∧ addLabel [] "" = [""] :=
  ⟨rfl, rfl, rfl, rfl⟩

end T2L
